import Mathlib

/-!
Verification of the hint-session rate limiter and lifecycle manager of
`services/surfaceflinger/DisplayHardware/PowerAdvisor.h` (class
`android::Hwc2::impl::AidlPowerHalWrapper` and its owning coordinator
`android::Hwc2::impl::PowerAdvisor`).

The header declares the interface, the member fields with their
initializers, and the rate-limiter constants; the bodies of the methods
are not part of the sources available here, so they are modelled from the
specification where indicated.  All durations and timestamps are
nanoseconds represented as `Int`; the deviation thresholds are exact
rationals.  The executable deviation test is written with integer
arithmetic (the threshold is exactly one tenth) and is proved equivalent
to the rational statement for positive last-sent values.
-/

/-- A queued work-duration record, mirroring
`hardware::power::WorkDuration` as used by `mPowerHintQueue`. -/
structure WorkDuration where
  durationNanos : Int
  timeStampNanos : Int
deriving DecidableEq, Repr

/-- Max fraction the actual duration can vary without causing a report
(source: `kAllowedActualDeviationPercent = 0.1`). -/
def kAllowedActualDeviationPercent : ℚ := 1 / 10

/-- Max fraction the target duration can vary without causing a report
(source: `kAllowedTargetDeviationPercent = 0.1`). -/
def kAllowedTargetDeviationPercent : ℚ := 1 / 10

/-- Target used for init and normalization, in nanoseconds
(source: `kDefaultTarget = 50ms`). -/
def kDefaultTarget : Int := 50 * 1000000

/-- Amount of time after the last message was sent before the session goes
stale, in nanoseconds (source: `kStaleTimeout = 80ms`; the comment in the
header notes the remote side actually expires sessions at 100 ms and 80 ms
is the chosen margin). -/
def kStaleTimeout : Int := 80 * 1000000

/-- State of `AidlPowerHalWrapper`: the member fields of the class with
their member initializers exactly as written in the header.
`mSessionRunning` models `mPowerHintSession != nullptr` (the handle itself
starts as `nullptr`).  `mSupportsPowerHint` has no initializer in the
source and plays no role in the claims below. -/
structure AidlPowerHalWrapper where
  mHasExpensiveRendering : Bool := false
  mHasDisplayUpdateImminent : Bool := false
  mShouldReconnectHal : Bool := false
  mSessionRunning : Bool := false
  mPowerHintQueue : List WorkDuration := []
  mTargetDuration : Int := kDefaultTarget
  mActualDuration : Option Int := none
  mPowerHintThreadIds : List Int := []
  mSupportsPowerHint : Bool := false
  mLastActualDurationSent : Option Int := none
  mLastActualReportTimestamp : Int := 0
  mLastTargetDurationSent : Int := kDefaultTarget
deriving DecidableEq, Repr

/-- The state of a freshly constructed `AidlPowerHalWrapper`: every field
takes its member-initializer value from the header. -/
def AidlPowerHalWrapper.initial : AidlPowerHalWrapper := {}

/-- Relative deviation of a new value from the last-sent value, the
quantity the spec describes as "deviates from the last-sent value by more
than 10%". -/
def relativeDeviation (lastSent x : Int) : ℚ :=
  |(x : ℚ) - (lastSent : ℚ)| / (lastSent : ℚ)

/-- Executable form of the deviation test: whether the new value deviates
from the last-sent value by more than one tenth.  Written with integer
arithmetic so it evaluates; `relativeDeviation_gt_tenth_iff` proves it is
exactly `relativeDeviation lastSent x > 1/10` whenever `0 < lastSent`. -/
def deviatesByMoreThanTenth (lastSent x : Int) : Bool :=
  decide (lastSent < 10 * ((x - lastSent).natAbs : Int))

/-- The integer deviation test coincides with the rational statement
"relative deviation exceeds one tenth" for positive last-sent values. -/
theorem relativeDeviation_gt_tenth_iff (lastSent x : Int) (h : 0 < lastSent) :
    deviatesByMoreThanTenth lastSent x = true ↔
      relativeDeviation lastSent x > 1 / 10 := by
  unfold deviatesByMoreThanTenth relativeDeviation
  rw [decide_eq_true_iff]
  have hq : (0 : ℚ) < (lastSent : ℚ) := by exact_mod_cast h
  rw [gt_iff_lt, div_lt_div_iff₀ (by norm_num) hq]
  have habs : |(x : ℚ) - (lastSent : ℚ)| = (((x - lastSent).natAbs : Int) : ℚ) := by
    rw [Int.cast_natAbs]
    push_cast
    ring_nf
  rw [habs]
  constructor
  · intro hlt
    have : ((lastSent : ℚ)) < 10 * (((x - lastSent).natAbs : Int) : ℚ) := by
      exact_mod_cast hlt
    linarith
  · intro hlt
    have : (lastSent : ℚ) < 10 * (((x - lastSent).natAbs : Int) : ℚ) := by linarith
    exact_mod_cast this

/-- Modelled from the spec: `AidlPowerHalWrapper::shouldSetTargetDuration`
(declared in the header, body not in the sources).  A newly requested
target is worth forwarding only if it deviates from the last-sent target
by more than `kAllowedTargetDeviationPercent` (10%). -/
def AidlPowerHalWrapper.shouldSetTargetDuration
    (s : AidlPowerHalWrapper) (targetDurationNanos : Int) : Bool :=
  deviatesByMoreThanTenth s.mLastTargetDurationSent targetDurationNanos

/-- Modelled from the spec:
`AidlPowerHalWrapper::shouldReportActualDurationsNow` (declared in the
header, body not in the sources).  Report if nothing was ever sent, if the
time since the last report exceeds `kStaleTimeout` (keep-alive), or if the
newest sample deviates from the last-sent actual duration by more than
`kAllowedActualDeviationPercent` (10%). -/
def AidlPowerHalWrapper.shouldReportActualDurationsNow
    (s : AidlPowerHalWrapper) (now : Int) : Bool :=
  match s.mLastActualDurationSent with
  | none => true
  | some lastSent =>
    decide (now - s.mLastActualReportTimestamp > kStaleTimeout) ||
      (match s.mActualDuration with
       | none => false
       | some actual => deviatesByMoreThanTenth lastSent actual)

/-- Modelled from the spec: the ACTIVE to STALE condition — the session is
stale exactly when the time since the last successful report exceeds
`kStaleTimeout`. -/
def AidlPowerHalWrapper.sessionIsStale
    (s : AidlPowerHalWrapper) (now : Int) : Bool :=
  decide (now - s.mLastActualReportTimestamp > kStaleTimeout)

/-- Outcome of `setTargetWorkDuration`: the updated wrapper state, and the
remote `updateTargetWorkDuration` call issued, if any (`sentTarget = some t`
means a remote set-target call carrying `t` was issued). -/
structure SetTargetOutcome where
  state : AidlPowerHalWrapper
  sentTarget : Option Int
deriving DecidableEq, Repr

/-- Modelled from the spec: `AidlPowerHalWrapper::setTargetWorkDuration`
(declared in the header, body not in the sources).  The latest
un-normalized target is always recorded.  With normalization enabled
(`sNormalizeTarget`, a build-time configuration read at startup, here an
explicit parameter) the target is never re-sent: actual values are instead
expressed relative to the constant default target sent at session start
(the header comment: "This saves a binder call by not setting the
target").  With normalization disabled, the target is forwarded only when
a session is live and the rate-limiter check `shouldSetTargetDuration`
passes, and the last-sent snapshot is updated on send. -/
def AidlPowerHalWrapper.setTargetWorkDuration
    (s : AidlPowerHalWrapper) (sNormalizeTarget : Bool)
    (targetDurationNanos : Int) : SetTargetOutcome :=
  let s1 := { s with mTargetDuration := targetDurationNanos }
  if sNormalizeTarget then
    ⟨s1, none⟩
  else if s.mSessionRunning && s.shouldSetTargetDuration targetDurationNanos then
    ⟨{ s1 with mLastTargetDurationSent := targetDurationNanos },
      some targetDurationNanos⟩
  else
    ⟨s1, none⟩

/-- Folds a whole sequence of `setTargetWorkDuration` requests over the
wrapper state, collecting every issued remote set-target call as a pair
(last-sent target at the time of the call, requested target sent). -/
def runSetTargets (sNormalizeTarget : Bool) (s : AidlPowerHalWrapper) :
    List Int → AidlPowerHalWrapper × List (Int × Int)
  | [] => (s, [])
  | t :: rest =>
    let out := s.setTargetWorkDuration sNormalizeTarget t
    let tail := runSetTargets sNormalizeTarget out.state rest
    (tail.1,
      (out.sentTarget.map (fun u => (s.mLastTargetDurationSent, u))).toList
        ++ tail.2)

/-- Outcome of `startPowerHintSession`: the updated state, the initial
target carried by the remote session-creation call (if one was made), and
the boolean success result returned to the caller. -/
structure StartSessionOutcome where
  state : AidlPowerHalWrapper
  createdWithTarget : Option Int
  success : Bool
deriving DecidableEq, Repr

/-- Modelled from the spec: `AidlPowerHalWrapper::startPowerHintSession`
(declared in the header, body not in the sources).  Creates the remote
session from the stored thread-id set, carrying the current target as the
initial target; fails (returning `false`) when a session already runs,
when no thread ids are stored, or when the remote call fails.  `remoteOk`
is the environment's answer to the remote call. -/
def AidlPowerHalWrapper.startPowerHintSession
    (s : AidlPowerHalWrapper) (remoteOk : Bool) : StartSessionOutcome :=
  if s.mSessionRunning || s.mPowerHintThreadIds.isEmpty then
    ⟨s, none, false⟩
  else if remoteOk then
    ⟨{ s with mSessionRunning := true }, some s.mTargetDuration, true⟩
  else
    ⟨{ s with mShouldReconnectHal := true }, none, false⟩

/-- Outcome of `sendActualWorkDuration`: the updated state, and the batch
carried by the remote report call, if one was issued (`sentBatch = some b`
means one remote call carrying exactly the list `b` was made). -/
structure SendActualOutcome where
  state : AidlPowerHalWrapper
  sentBatch : Option (List WorkDuration)
deriving DecidableEq, Repr

/-- Modelled from the spec: `AidlPowerHalWrapper::sendActualWorkDuration`
(declared in the header, body not in the sources).  The incoming sample is
recorded and appended to `mPowerHintQueue`; when the rate limiter decides
to report, the entire queued batch is flushed as one remote call.  On
success the queue is cleared and the last-sent/last-timestamp snapshot
updated; on failure the batch is dropped (queue still cleared, snapshot
untouched) and the wrapper is marked for reconnection.  The sample's
timestamp doubles as the current time for the staleness check; `remoteOk`
is the environment's answer to the remote call. -/
def AidlPowerHalWrapper.sendActualWorkDuration
    (s : AidlPowerHalWrapper) (actualDurationNanos timeStampNanos : Int)
    (remoteOk : Bool) : SendActualOutcome :=
  if s.mSessionRunning then
    let s1 := { s with
      mActualDuration := some actualDurationNanos,
      mPowerHintQueue :=
        s.mPowerHintQueue ++ [WorkDuration.mk actualDurationNanos timeStampNanos] }
    if s1.shouldReportActualDurationsNow timeStampNanos then
      if remoteOk then
        ⟨{ s1 with
            mPowerHintQueue := [],
            mLastActualDurationSent := some actualDurationNanos,
            mLastActualReportTimestamp := timeStampNanos },
          some s1.mPowerHintQueue⟩
      else
        ⟨{ s1 with mPowerHintQueue := [], mShouldReconnectHal := true },
          some s1.mPowerHintQueue⟩
    else
      ⟨s1, none⟩
  else
    ⟨s, none⟩

/-- From the source interface: `shouldReconnectHAL` exposes the stored
error flag `mShouldReconnectHal` ("Used to indicate an error state and
need for reconstruction"). -/
def AidlPowerHalWrapper.shouldReconnectHAL (s : AidlPowerHalWrapper) : Bool :=
  s.mShouldReconnectHal

/-- The primitive operations of the session capability
(`PowerAdvisor::HalWrapper`), one constructor per pure-virtual method the
claims are about. -/
inductive HalOp
  | setExpensiveRendering (enabled : Bool)
  | notifyDisplayUpdateImminent
  | supportsPowerHintSession
  | isPowerHintSessionRunning
  | restartPowerHintSession
  | setPowerHintSessionThreadIds (threadIds : List Int)
  | startPowerHintSession
  | setTargetWorkDuration (targetDurationNanos : Int)
  | sendActualWorkDuration (actualDurationNanos timeStampNanos : Int)
deriving DecidableEq, Repr

/-- Result of a primitive capability operation: either the boolean the
method returns, or nothing for the `void` methods.  There is no error or
exception constructor — failure is only ever a returned boolean or the
stored reconnect flag. -/
inductive HalOpResult
  | boolResult (b : Bool)
  | voidResult
deriving DecidableEq, Repr

/-- Modelled from the spec: one synchronous step of the capability.
`remoteOk` is the environment's answer to whatever remote call the
operation performs (`true` when the remote call succeeds);
`sNormalizeTarget` is the normalization configuration.  Every operation
returns an updated state and a `HalOpResult`; a failed remote call marks
`mShouldReconnectHal` and, for boolean operations, returns `false`. -/
def runHalOp (remoteOk sNormalizeTarget : Bool) (s : AidlPowerHalWrapper) :
    HalOp → AidlPowerHalWrapper × HalOpResult
  | .setExpensiveRendering enabled =>
    if remoteOk then
      ({ s with mHasExpensiveRendering := enabled }, .boolResult true)
    else
      ({ s with mShouldReconnectHal := true }, .boolResult false)
  | .notifyDisplayUpdateImminent =>
    if remoteOk then
      (s, .boolResult true)
    else
      ({ s with mShouldReconnectHal := true }, .boolResult false)
  | .supportsPowerHintSession =>
    (s, .boolResult s.mSupportsPowerHint)
  | .isPowerHintSessionRunning =>
    (s, .boolResult s.mSessionRunning)
  | .restartPowerHintSession =>
    if remoteOk then
      ({ s with mSessionRunning := true }, .voidResult)
    else
      ({ s with mSessionRunning := false, mShouldReconnectHal := true },
        .voidResult)
  | .setPowerHintSessionThreadIds threadIds =>
    ({ s with mPowerHintThreadIds := threadIds }, .voidResult)
  | .startPowerHintSession =>
    let out := s.startPowerHintSession remoteOk
    (out.state, .boolResult out.success)
  | .setTargetWorkDuration t =>
    let out := s.setTargetWorkDuration sNormalizeTarget t
    if out.sentTarget.isSome && !remoteOk then
      ({ out.state with mShouldReconnectHal := true }, .voidResult)
    else
      (out.state, .voidResult)
  | .sendActualWorkDuration a ts =>
    ((s.sendActualWorkDuration a ts remoteOk).state, .voidResult)

/-- Whether, from state `s`, the given operation issues a remote call at
all (pure queries and suppressed reports do not). -/
def halOpIssuesRemoteCall (s : AidlPowerHalWrapper) (sNormalizeTarget : Bool) :
    HalOp → Bool
  | .setExpensiveRendering _ => true
  | .notifyDisplayUpdateImminent => true
  | .supportsPowerHintSession => false
  | .isPowerHintSessionRunning => false
  | .restartPowerHintSession => true
  | .setPowerHintSessionThreadIds _ => false
  | .startPowerHintSession =>
    !(s.mSessionRunning || s.mPowerHintThreadIds.isEmpty)
  | .setTargetWorkDuration t =>
    (s.setTargetWorkDuration sNormalizeTarget t).sentTarget.isSome
  | .sendActualWorkDuration a ts =>
    (s.sendActualWorkDuration a ts false).sentBatch.isSome

/-- Remote calls made by the coordinator, as observable events. -/
inductive RemoteCall
  | expensiveRendering (enabled : Bool)
  | displayUpdateImminent
deriving DecidableEq, Repr

/-- State of `impl::PowerAdvisor`: the member fields of the class with
their member initializers exactly as written in the header.
`mPowerHintEnabled` and `mSupportsPowerHint` are default-constructed
`std::optional`s, hence `none`; `mExpensiveDisplays` models the display
set and `mScreenUpdateTimer` is the external debounce timer, absent until
`init`. -/
structure PowerAdvisor where
  mReconnectPowerHal : Bool := false
  mBootFinished : Bool := false
  mPowerHintEnabled : Option Bool := none
  mSupportsPowerHint : Option Bool := none
  mPowerHintSessionRunning : Bool := false
  mExpensiveDisplays : List Nat := []
  mNotifiedExpensiveRendering : Bool := false
  mSendUpdateImminent : Bool := true
  mLastScreenUpdatedTime : Int := 0
deriving DecidableEq, Repr

/-- The state of a freshly constructed `impl::PowerAdvisor`: every field
takes its member-initializer value from the header. -/
def PowerAdvisor.initial : PowerAdvisor := {}

/-- Outcome of a coordinator operation: updated state, remote calls
issued, and the boolean result where the method returns one. -/
structure AdvisorOutcome where
  state : PowerAdvisor
  remoteCalls : List RemoteCall
  result : Bool
deriving DecidableEq, Repr

/-- From the source (the body is inline in the header):
`isUsingExpensiveRendering() { return mNotifiedExpensiveRendering; }` —
a pure read of the stored aggregate flag, issuing no remote call and
leaving the state untouched. -/
def PowerAdvisor.isUsingExpensiveRendering (s : PowerAdvisor) : AdvisorOutcome :=
  ⟨s, [], s.mNotifiedExpensiveRendering⟩

/-- Modelled from the spec: `PowerAdvisor::onBootFinished` completes the
one-time boot sequence by setting the boot-finished flag. -/
def PowerAdvisor.onBootFinished (s : PowerAdvisor) : PowerAdvisor :=
  { s with mBootFinished := true }

/-- Modelled from the spec: `PowerAdvisor::canNotifyDisplayUpdateImminent`
exposes whether the next `notifyDisplayUpdateImminent` call would actually
forward a notification, i.e. the current value of the debounce send
flag. -/
def PowerAdvisor.canNotifyDisplayUpdateImminent (s : PowerAdvisor) : Bool :=
  s.mSendUpdateImminent

/-- Modelled from the spec: `PowerAdvisor::notifyDisplayUpdateImminent` is
debounced — when the send flag allows, it forwards one notification to
the capability and clears the flag until the one-shot timer re-arms it;
otherwise it is a no-op apart from recording the update time. -/
def PowerAdvisor.notifyDisplayUpdateImminent
    (s : PowerAdvisor) (now : Int) : AdvisorOutcome :=
  if s.mSendUpdateImminent then
    ⟨{ s with mSendUpdateImminent := false, mLastScreenUpdatedTime := now },
      [RemoteCall.displayUpdateImminent], true⟩
  else
    ⟨{ s with mLastScreenUpdatedTime := now }, [], false⟩

/-- Modelled from the spec: the one-shot debounce timer firing only clears
the debounce state, re-arming the send flag; it performs no remote
call. -/
def PowerAdvisor.onScreenUpdateTimerFire (s : PowerAdvisor) : PowerAdvisor :=
  { s with mSendUpdateImminent := true }

/-- Helper: with normalization disabled, a remote set-target call is
issued exactly for the requested value, and only when the rate-limiter
check passed. -/
theorem setTargetWorkDuration_sent_eq (s : AidlPowerHalWrapper) (t u : Int)
    (ho : (s.setTargetWorkDuration false t).sentTarget = some u) :
    u = t ∧ s.shouldSetTargetDuration t = true := by
  unfold AidlPowerHalWrapper.setTargetWorkDuration at ho
  simp only [Bool.false_eq_true, if_false] at ho
  split at ho
  case isTrue hcond =>
    simp only [Option.some.injEq] at ho
    simp only [Bool.and_eq_true] at hcond
    exact ⟨ho.symm, hcond.2⟩
  case isFalse hcond =>
    simp at ho

/-- Helper: a fully-normalized run never issues a remote set-target
call. -/
theorem runSetTargets_normalized_emits_nothing
    (reqs : List Int) (s : AidlPowerHalWrapper) :
    (runSetTargets true s reqs).2 = [] := by
  induction reqs generalizing s with
  | nil => rfl
  | cons t rest ih =>
    rw [runSetTargets]
    have h1 : (s.setTargetWorkDuration true t).sentTarget = none := rfl
    simp [h1, ih]

/-- C1: with normalization disabled, along every sequence of
target-duration requests, each remote set-target call issued carries a
value that deviates from the target last sent at that moment by more than
the allowed target deviation of 10 percent; a request within 10 percent of
the last-sent target is suppressed (it produces no entry in the emitted
calls). -/
theorem setTarget_rateLimited_when_unnormalized
    (s : AidlPowerHalWrapper) (reqs : List Int) (p : Int × Int)
    (hp : p ∈ (runSetTargets false s reqs).2) :
    deviatesByMoreThanTenth p.1 p.2 = true ∧
      (0 < p.1 → relativeDeviation p.1 p.2 > kAllowedTargetDeviationPercent) := by
  induction reqs generalizing s with
  | nil => simp [runSetTargets] at hp
  | cons t rest ih =>
    rw [runSetTargets] at hp
    rcases List.mem_append.mp hp with hl | hr
    · rcases ho : (s.setTargetWorkDuration false t).sentTarget with _ | u
      · rw [ho] at hl
        simp at hl
      · rw [ho] at hl
        simp only [Option.map_some', Option.toList_some, List.mem_singleton] at hl
        obtain ⟨hu, hdev⟩ := setTargetWorkDuration_sent_eq s t u ho
        subst hu hl
        refine ⟨hdev, fun hpos => ?_⟩
        show relativeDeviation s.mLastTargetDurationSent u > 1 / 10
        exact (relativeDeviation_gt_tenth_iff _ _ hpos).mp hdev
    · exact ih _ hr

/-- C1 witness: from a running session with the default last-sent target
of 50 ms, requesting 60 ms (20 percent deviation) issues exactly one
remote set-target call, and the theorem applies to it. -/
theorem setTarget_rateLimited_when_unnormalized_witness :
    deviatesByMoreThanTenth 50000000 60000000 = true ∧
      (0 < (50000000 : Int) →
        relativeDeviation 50000000 60000000 > kAllowedTargetDeviationPercent) :=
  setTarget_rateLimited_when_unnormalized
    { AidlPowerHalWrapper.initial with mSessionRunning := true }
    [60000000] (50000000, 60000000) (by decide)

/-- C3: with normalization enabled, the remote set-target-duration call is
issued at most once per session lifetime — the session-creation call at
`startPowerHintSession` carries the only target ever transmitted, and no
subsequent `setTargetWorkDuration` request, whatever its value, issues
another one. -/
theorem normalizedTarget_sentAtMostOncePerSession
    (s : AidlPowerHalWrapper) (remoteOk : Bool) (reqs : List Int) :
    (runSetTargets true (s.startPowerHintSession remoteOk).state reqs).2 = [] ∧
      (s.startPowerHintSession remoteOk).createdWithTarget.toList.length +
        (runSetTargets true (s.startPowerHintSession remoteOk).state reqs).2.length
        ≤ 1 := by
  have h := runSetTargets_normalized_emits_nothing reqs
    (s.startPowerHintSession remoteOk).state
  refine ⟨h, ?_⟩
  rw [h]
  rcases hc : (s.startPowerHintSession remoteOk).createdWithTarget with _ | v
  · simp
  · simp

/-- C2: once some actual duration has been sent, a new sample triggers an
actual-duration report exactly when it deviates from the last-sent actual
duration by more than the allowed 10 percent, or when the elapsed time
since the last report exceeds the staleness timeout (the keep-alive case,
which fires even with zero deviation). -/
theorem actualReport_sent_iff (s : AidlPowerHalWrapper)
    (a now : Int) (remoteOk : Bool) (lastSent : Int)
    (hrun : s.mSessionRunning = true)
    (hlast : s.mLastActualDurationSent = some lastSent)
    (hpos : 0 < lastSent) :
    (s.sendActualWorkDuration a now remoteOk).sentBatch.isSome = true ↔
      (relativeDeviation lastSent a > kAllowedActualDeviationPercent ∨
        now - s.mLastActualReportTimestamp > kStaleTimeout) := by
  have hshould : (s.sendActualWorkDuration a now remoteOk).sentBatch.isSome =
      (decide (now - s.mLastActualReportTimestamp > kStaleTimeout) ||
        deviatesByMoreThanTenth lastSent a) := by
    unfold AidlPowerHalWrapper.sendActualWorkDuration
    simp only [hrun, if_true]
    unfold AidlPowerHalWrapper.shouldReportActualDurationsNow
    simp only [hlast]
    split
    case isTrue hcond => split <;> simp [hcond]
    case isFalse hcond =>
      rw [Bool.not_eq_true] at hcond
      simp [hcond]
  rw [hshould, Bool.or_eq_true, decide_eq_true_iff,
    relativeDeviation_gt_tenth_iff lastSent a hpos]
  constructor
  · rintro (h | h)
    · exact Or.inr h
    · exact Or.inl h
  · rintro (h | h)
    · exact Or.inr h
    · exact Or.inl h

/-- A concrete wrapper state used by the witnesses: session live, last
sent actual duration 1 ms at timestamp 0. -/
def sWitness : AidlPowerHalWrapper :=
  { AidlPowerHalWrapper.initial with
      mSessionRunning := true,
      mLastActualDurationSent := some 1000000,
      mLastActualReportTimestamp := 0 }

/-- C2 witness: from `sWitness`, a 2 ms sample (100 percent deviation)
triggers a report. -/
theorem actualReport_sent_iff_witness :
    (sWitness.sendActualWorkDuration 2000000 1000 true).sentBatch.isSome = true :=
  (actualReport_sent_iff sWitness 2000000 1000 true 1000000 rfl rfl
      (by norm_num)).mpr
    (Or.inl (by norm_num [relativeDeviation, kAllowedActualDeviationPercent]))

/-- C4: the staleness timeout is 80 ms (80,000,000 ns), strictly below the
100 ms service-side staleness window, the session counts as stale exactly
when the time since the last successful report exceeds that timeout, and a
stale session forces the next report decision to fire. -/
theorem staleTimeout_transition (s : AidlPowerHalWrapper) (now : Int) :
    kStaleTimeout = 80000000 ∧
      kStaleTimeout < 100 * 1000000 ∧
      (s.sessionIsStale now = true ↔
        now - s.mLastActualReportTimestamp > 80000000) ∧
      (s.sessionIsStale now = true → s.shouldReportActualDurationsNow now = true) := by
  refine ⟨by decide, by decide, ?_, ?_⟩
  · unfold AidlPowerHalWrapper.sessionIsStale
    rw [decide_eq_true_iff]
    norm_num [kStaleTimeout]
  · intro hstale
    unfold AidlPowerHalWrapper.sessionIsStale at hstale
    unfold AidlPowerHalWrapper.shouldReportActualDurationsNow
    rcases h : s.mLastActualDurationSent with _ | l
    · rfl
    · simp only [hstale, Bool.true_or]

/-- C4 witness: with the last report at timestamp 0, at 200 ms the session
is stale and the report decision fires for `sWitness`. -/
theorem staleTimeout_transition_witness :
    AidlPowerHalWrapper.shouldReportActualDurationsNow sWitness 200000000 = true :=
  (staleTimeout_transition sWitness 200000000).2.2.2 (by decide)

/-- C5: whenever a report of actual durations is triggered, the entire
queued batch — everything queued so far plus the newest sample — is
flushed as one remote call and the queue is emptied; on success the
last-sent-actual and last-report-timestamp snapshot is updated to the
newest sample, while on failure the snapshot is left untouched and the
batch is simply dropped (the emptied queue keeps nothing for a retry). -/
theorem actualReport_flushesWholeBatch (s : AidlPowerHalWrapper)
    (a ts : Int) (remoteOk : Bool)
    (h : (s.sendActualWorkDuration a ts remoteOk).sentBatch.isSome = true) :
    (s.sendActualWorkDuration a ts remoteOk).sentBatch =
        some (s.mPowerHintQueue ++ [WorkDuration.mk a ts]) ∧
      (s.sendActualWorkDuration a ts remoteOk).state.mPowerHintQueue = [] ∧
      (remoteOk = true →
        (s.sendActualWorkDuration a ts remoteOk).state.mLastActualDurationSent
            = some a ∧
        (s.sendActualWorkDuration a ts remoteOk).state.mLastActualReportTimestamp
            = ts) ∧
      (remoteOk = false →
        (s.sendActualWorkDuration a ts remoteOk).state.mLastActualDurationSent
            = s.mLastActualDurationSent ∧
        (s.sendActualWorkDuration a ts remoteOk).state.mLastActualReportTimestamp
            = s.mLastActualReportTimestamp) := by
  by_cases hrun : s.mSessionRunning = true
  · unfold AidlPowerHalWrapper.sendActualWorkDuration at h ⊢
    simp only [hrun, if_true] at h ⊢
    split at h
    · cases remoteOk <;> simp_all
    · simp at h
  · unfold AidlPowerHalWrapper.sendActualWorkDuration at h
    simp [hrun] at h

/-- C5 witness: from `sWitness` with one sample already queued, a 2 ms
sample triggers a flush of both samples in one call, and since the send
fails the queue is emptied while the snapshot is untouched. -/
theorem actualReport_flushesWholeBatch_witness :
    ({ sWitness with mPowerHintQueue := [WorkDuration.mk 1050000 500] :
        AidlPowerHalWrapper}.sendActualWorkDuration 2000000 1000 false).sentBatch
      = some [WorkDuration.mk 1050000 500, WorkDuration.mk 2000000 1000] :=
  (actualReport_flushesWholeBatch
    { sWitness with mPowerHintQueue := [WorkDuration.mk 1050000 500] }
    2000000 1000 false (by decide)).1

/-- Helper: a report attempt whose remote call fails leaves the wrapper
marked for reconnection. -/
theorem sendActual_failure_setsReconnect (s : AidlPowerHalWrapper) (a ts : Int)
    (h : (s.sendActualWorkDuration a ts false).sentBatch.isSome = true) :
    (s.sendActualWorkDuration a ts false).state.mShouldReconnectHal = true := by
  by_cases hrun : s.mSessionRunning = true
  · unfold AidlPowerHalWrapper.sendActualWorkDuration at h ⊢
    simp only [hrun, if_true] at h ⊢
    split at h
    · simp_all
    · simp at h
  · unfold AidlPowerHalWrapper.sendActualWorkDuration at h
    simp [hrun] at h

/-- C6: every primitive capability operation is a total synchronous step
returning an ordinary value — a boolean or nothing, never anything
thrown — and whenever the operation issued a remote call whose remote
side failed, the wrapper records the failure, so the caller can learn from
`shouldReconnectHAL` that the whole capability is unusable; a failed
boolean-returning operation moreover returns `false`. -/
theorem halOp_failure_reporting (s : AidlPowerHalWrapper)
    (sNormalizeTarget : Bool) (op : HalOp)
    (h : halOpIssuesRemoteCall s sNormalizeTarget op = true) :
    (runHalOp false sNormalizeTarget s op).1.shouldReconnectHAL = true ∧
      ((runHalOp false sNormalizeTarget s op).2 = HalOpResult.voidResult ∨
        (runHalOp false sNormalizeTarget s op).2 = HalOpResult.boolResult false) := by
  cases op with
  | setExpensiveRendering enabled =>
    exact ⟨rfl, Or.inr rfl⟩
  | notifyDisplayUpdateImminent =>
    exact ⟨rfl, Or.inr rfl⟩
  | supportsPowerHintSession =>
    simp [halOpIssuesRemoteCall] at h
  | isPowerHintSessionRunning =>
    simp [halOpIssuesRemoteCall] at h
  | restartPowerHintSession =>
    exact ⟨rfl, Or.inl rfl⟩
  | setPowerHintSessionThreadIds threadIds =>
    simp [halOpIssuesRemoteCall] at h
  | startPowerHintSession =>
    have hc : (s.mSessionRunning || s.mPowerHintThreadIds.isEmpty) = false := by
      have h' : (!(s.mSessionRunning || s.mPowerHintThreadIds.isEmpty)) = true := h
      simpa using h'
    refine ⟨?_, Or.inr ?_⟩ <;>
      simp [runHalOp, AidlPowerHalWrapper.startPowerHintSession,
        AidlPowerHalWrapper.shouldReconnectHAL, hc]
  | setTargetWorkDuration t =>
    have h' : (s.setTargetWorkDuration sNormalizeTarget t).sentTarget.isSome = true := h
    refine ⟨?_, Or.inl ?_⟩ <;>
      simp [runHalOp, AidlPowerHalWrapper.shouldReconnectHAL, h']
  | sendActualWorkDuration a ts =>
    have h' : (s.sendActualWorkDuration a ts false).sentBatch.isSome = true := h
    exact ⟨sendActual_failure_setsReconnect s a ts h', Or.inl rfl⟩

/-- C6 witness: a failed set-expensive-rendering call on a fresh wrapper
returns the failure boolean and marks the capability for reconnection. -/
theorem halOp_failure_reporting_witness :
    (runHalOp false false AidlPowerHalWrapper.initial
        (HalOp.setExpensiveRendering true)).1.shouldReconnectHAL = true ∧
      ((runHalOp false false AidlPowerHalWrapper.initial
          (HalOp.setExpensiveRendering true)).2 = HalOpResult.voidResult ∨
        (runHalOp false false AidlPowerHalWrapper.initial
          (HalOp.setExpensiveRendering true)).2 = HalOpResult.boolResult false) :=
  halOp_failure_reporting AidlPowerHalWrapper.initial false
    (HalOp.setExpensiveRendering true) (by decide)

/-- C7: `isUsingExpensiveRendering` returns exactly the stored
`mNotifiedExpensiveRendering` flag, leaves the advisor state unchanged,
and issues no remote call. -/
theorem isUsingExpensiveRendering_pureRead (s : PowerAdvisor) :
    (s.isUsingExpensiveRendering).result = s.mNotifiedExpensiveRendering ∧
      (s.isUsingExpensiveRendering).state = s ∧
      (s.isUsingExpensiveRendering).remoteCalls = [] :=
  ⟨rfl, rfl, rfl⟩

/-- C8: a freshly constructed Power Advisor is unready — boot-finished is
false, the hint-enabled and hint-supported optionals are unset, and no
hint session is running — and the boot sequence is what makes it ready. -/
theorem powerAdvisor_constructedUnready :
    PowerAdvisor.initial.mBootFinished = false ∧
      PowerAdvisor.initial.mPowerHintEnabled = none ∧
      PowerAdvisor.initial.mSupportsPowerHint = none ∧
      PowerAdvisor.initial.mPowerHintSessionRunning = false ∧
      PowerAdvisor.initial.onBootFinished.mBootFinished = true :=
  ⟨rfl, rfl, rfl, rfl, rfl⟩

/-- C9: at construction the last-sent target is already the 50 ms default
although nothing was ever sent, so the very first target request is
rate-limited against 50 ms: any first request within 10 percent of the
default produces no remote set-target call even on a live session. -/
theorem firstTarget_comparedAgainstDefault (sNormalizeTarget : Bool) (t : Int)
    (h : relativeDeviation kDefaultTarget t ≤ kAllowedTargetDeviationPercent) :
    AidlPowerHalWrapper.initial.mLastTargetDurationSent = kDefaultTarget ∧
      kDefaultTarget = 50000000 ∧
      ({ AidlPowerHalWrapper.initial with mSessionRunning := true :
          AidlPowerHalWrapper }.setTargetWorkDuration sNormalizeTarget t).sentTarget
        = none := by
  have hpos : (0 : Int) < kDefaultTarget := by decide
  have hdev : deviatesByMoreThanTenth kDefaultTarget t = false := by
    cases hb : deviatesByMoreThanTenth kDefaultTarget t
    · rfl
    · exfalso
      have hgt := (relativeDeviation_gt_tenth_iff kDefaultTarget t hpos).mp hb
      have hle : relativeDeviation kDefaultTarget t ≤ 1 / 10 := h
      linarith
  refine ⟨rfl, by decide, ?_⟩
  have hshould : ({ AidlPowerHalWrapper.initial with mSessionRunning := true :
      AidlPowerHalWrapper }).shouldSetTargetDuration t = false := hdev
  cases sNormalizeTarget
  · unfold AidlPowerHalWrapper.setTargetWorkDuration
    simp [hshould]
  · rfl

/-- C9 witness: the first request of 52 ms (4 percent from the 50 ms
default) is suppressed on a live session with nothing ever sent. -/
theorem firstTarget_comparedAgainstDefault_witness :
    ({ AidlPowerHalWrapper.initial with mSessionRunning := true :
        AidlPowerHalWrapper }.setTargetWorkDuration false 52000000).sentTarget
      = none :=
  (firstTarget_comparedAgainstDefault false 52000000
    (by norm_num [relativeDeviation, kDefaultTarget,
      kAllowedTargetDeviationPercent])).2.2

/-- C10: a freshly constructed Power Advisor has the update-imminent send
flag true, reports that a notification can be forwarded, and its first
`notifyDisplayUpdateImminent` call does forward one, before any debounce
timer has fired. -/
theorem updateImminent_firstCallForwards (now : Int) :
    PowerAdvisor.initial.mSendUpdateImminent = true ∧
      PowerAdvisor.initial.canNotifyDisplayUpdateImminent = true ∧
      (PowerAdvisor.initial.notifyDisplayUpdateImminent now).remoteCalls =
        [RemoteCall.displayUpdateImminent] ∧
      (PowerAdvisor.initial.notifyDisplayUpdateImminent now).result = true :=
  ⟨rfl, rfl, rfl, rfl⟩
